import Mathlib

/-!
Shallow embedding of the sandboxed code-execution engine of the Shell IDE
repository (src/src-tauri/src/docker.rs and src/src-tauri/src/commands/execution.rs).

Stateful Rust code is modelled by explicit state passing: the `DockerManager`
struct becomes a record carrying the optional engine handle and the registry of
running containers; every engine interaction (create, start, wait, kill, logs,
remove, connect, ping) is resolved against an `EngineBehavior` oracle that fixes
the outcome the external container engine would produce, and the calls actually
issued are recorded in an explicit action list.  Machine integers (`i64`, `u64`)
become `Int`/`Nat`; fallible Rust functions returning `Result<T, ShellError>`
become `Except ShellError T`; the panicking byte-slice `&s[..8]` becomes an
explicit `Option`-valued operation together with a `panicked` outcome.
-/

namespace Shell

/-- Model of `ShellError` (src/src-tauri/src/error.rs); only the variants the
execution engine constructs are needed. -/
inductive ShellError where
  | docker (msg : String)
  | execution (msg : String)
deriving DecidableEq, Repr

/-- Model of `ContainerStatus` (docker.rs lines 38-45). -/
inductive ContainerStatus where
  | starting
  | running
  | completed
  | timedOut
  | failed
deriving DecidableEq, Repr

/-- Model of `ContainerInfo` (docker.rs lines 30-36); the chrono timestamp is
abstracted to a `Nat`. -/
structure ContainerInfo where
  id : String
  execution_id : String
  started_at : Nat
  status : ContainerStatus
deriving DecidableEq, Repr

/-- The registry `HashMap<String, ContainerInfo>` is modelled as an association
list whose keys are kept distinct by the operations below. -/
abbrev Registry := List (String × ContainerInfo)

/-- `HashMap::get`: first (and, under the maintained invariant, only) binding. -/
def Registry.lookup : Registry → String → Option ContainerInfo
  | [], _ => none
  | (k, v) :: r, key => if k = key then some v else Registry.lookup r key

/-- `HashMap::remove`: drop every binding of the key (at most one exists). -/
def Registry.remove : Registry → String → Registry
  | [], _ => []
  | (k, v) :: r, key =>
      if k = key then Registry.remove r key else (k, v) :: Registry.remove r key

/-- `HashMap::insert`: bind the key, replacing any previous binding. -/
def Registry.insert (r : Registry) (key : String) (v : ContainerInfo) : Registry :=
  (key, v) :: Registry.remove r key

/-- `running.get_mut(&execution_id)` followed by `info.status = s`
(docker.rs lines 208-213): update the status of the binding, if present. -/
def Registry.updateStatus : Registry → String → ContainerStatus → Registry
  | [], _, _ => []
  | (k, v) :: r, key, s =>
      if k = key then (k, { v with status := s }) :: r
      else (k, v) :: Registry.updateStatus r key s

/-- Model of `ExecutionRequest` (docker.rs lines 47-71). -/
structure ExecutionRequest where
  id : String
  image : String
  command : List String
  working_dir : String
  source_path : String
  env : List (String × String)
  memory_limit : Option Int
  cpu_quota : Option Int
  timeout : Option Nat
  step_mode : Bool
  trace_io : Bool
deriving DecidableEq, Repr

/-- Model of `IoEvent` (docker.rs lines 100-105). -/
structure IoEvent where
  timestamp_ms : Nat
  stream : String
  data : String
deriving DecidableEq, Repr

/-- Model of `ExecutionStep` (docker.rs lines 93-98); the `serde_json::Value`
payload is abstracted to a string (no step is ever constructed by the code). -/
structure ExecutionStep where
  timestamp_ms : Nat
  event_type : String
  data : String
deriving DecidableEq, Repr

/-- Model of `ExecutionTrace` (docker.rs lines 85-91). -/
structure ExecutionTrace where
  steps : List ExecutionStep
  io_events : List IoEvent
deriving DecidableEq, Repr

/-- Model of `ExecutionResult` (docker.rs lines 73-83). -/
structure ExecutionResult where
  id : String
  exit_code : Int
  stdout : String
  stderr : String
  duration_ms : Nat
  timed_out : Bool
  trace : Option ExecutionTrace
deriving DecidableEq, Repr

/-- Default resource limits (docker.rs lines 19-23). -/
def DEFAULT_MEMORY_LIMIT : Int := 256 * 1024 * 1024

/-- Default CPU accounting period in microseconds (docker.rs line 21). -/
def DEFAULT_CPU_PERIOD : Int := 100000

/-- Default CPU quota (docker.rs line 22). -/
def DEFAULT_CPU_QUOTA : Int := 50000

/-- Default timeout in seconds (docker.rs line 23). -/
def DEFAULT_TIMEOUT_SECONDS : Nat := 30

/-- The fields of bollard's `Mount` that docker.rs sets (lines 158-164); the
mount type enum is abstracted to its string tag. -/
structure Mount where
  target : Option String
  source : Option String
  typ : Option String
  read_only : Option Bool
deriving DecidableEq, Repr

/-- The fields of bollard's `HostConfig` that docker.rs sets (lines 152-167). -/
structure HostConfig where
  memory : Option Int
  cpu_period : Option Int
  cpu_quota : Option Int
  network_mode : Option String
  mounts : Option (List Mount)
deriving DecidableEq, Repr

/-- The fields of bollard's container `Config` that docker.rs sets
(lines 174-181). -/
structure Config where
  image : Option String
  cmd : Option (List String)
  working_dir : Option String
  env : Option (List String)
  host_config : Option HostConfig
deriving DecidableEq, Repr

/-- The `HostConfig` literal built in `DockerManager::run`
(docker.rs lines 152-167). -/
def buildHostConfig (request : ExecutionRequest) : HostConfig :=
  { memory := some (request.memory_limit.getD DEFAULT_MEMORY_LIMIT)
    cpu_period := some DEFAULT_CPU_PERIOD
    cpu_quota := some (request.cpu_quota.getD DEFAULT_CPU_QUOTA)
    network_mode := some "none"
    mounts := some [{ target := some "/workspace"
                      source := some request.source_path
                      typ := some "bind"
                      read_only := some true }] }

/-- The container `Config` literal built in `DockerManager::run`
(docker.rs lines 169-181); `format!("{}={}", k, v)` becomes string append. -/
def buildConfig (request : ExecutionRequest) : Config :=
  { image := some request.image
    cmd := some request.command
    working_dir := some request.working_dir
    env := some (request.env.map (fun p => p.1 ++ "=" ++ p.2))
    host_config := some (buildHostConfig request) }

/-- The effective timeout used at the point of the wait race
(docker.rs line 216): `request.timeout.unwrap_or(DEFAULT_TIMEOUT_SECONDS)`. -/
def effectiveTimeout (request : ExecutionRequest) : Nat :=
  request.timeout.getD DEFAULT_TIMEOUT_SECONDS

/-- Total number of UTF-8 bytes of a character list, matching Rust's byte
indexing of `String`. -/
def utf8Len (cs : List Char) : Nat := (cs.map Char.utf8Size).sum

/-- Model of the Rust byte-slice `&s[..n]`: `some pre` when the first `n`
bytes of `s` are exactly the characters `pre` (so byte `n` is a UTF-8 char
boundary and `n` is at most the byte length), `none` when the slice would
panic. -/
def takeBytes : List Char → Nat → Option (List Char)
  | _, 0 => some []
  | [], _ + 1 => none
  | c :: cs, n + 1 =>
      if c.utf8Size ≤ n + 1 then
        (takeBytes cs (n + 1 - c.utf8Size)).map (fun pre => c :: pre)
      else none

/-- `format!("shell-exec-{}", &execution_id[..8])` (docker.rs line 184), given
the characters of the 8-byte prefix. -/
def containerName (pre : List Char) : String :=
  "shell-exec-" ++ String.mk pre

/-- Outcome of the race `tokio::time::timeout(_, wait_container(..).next())`
(docker.rs lines 217-220), as the engine environment resolves it. -/
inductive WaitResult where
  | exited (status_code : Int)
  | waitErr (msg : String)
  | streamEnded
  | elapsed
deriving DecidableEq, Repr

/-- One variant of bollard's `LogOutput` as matched in docker.rs lines 246-269;
all variants other than StdOut/StdErr fall into `other`. -/
inductive LogOutput where
  | stdOut (message : String)
  | stdErr (message : String)
  | other
deriving DecidableEq, Repr

deriving instance DecidableEq for Except

/-- One item of the log stream together with the value `start_time.elapsed()`
would report at its arrival (docker.rs lines 251 and 262). -/
structure LogChunk where
  at_ms : Nat
  item : Except String LogOutput
deriving DecidableEq, Repr

/-- Oracle fixing every response of the external container engine for one
scenario: resolves `connect_with_local_defaults`, the two pings, and the
create/start/wait/kill/log calls of one run. -/
structure EngineBehavior where
  connect : Except String Unit
  connectPing : Except String Unit
  ping : Except String Unit
  create : Except String String
  start : Except String Unit
  wait : WaitResult
  logs : List LogChunk
  kill : Except String Unit
deriving Repr

/-- Model of the `DockerManager` struct (docker.rs lines 25-28): the optional
connected engine handle and the registry of running containers. -/
structure DockerManager where
  client : Option Unit
  running_containers : Registry
deriving DecidableEq, Repr

/-- Engine calls a run or stop actually issues, in order.  `createContainer`
carries the name and full `Config` passed to the engine; `waitContainer`
carries the timeout (seconds) the race was armed with. -/
inductive EngineAction where
  | createContainer (name : String) (config : Config)
  | startContainer (id : String)
  | waitContainer (id : String) (timeout_secs : Nat)
  | killContainer (id : String)
  | logsContainer (id : String)
  | removeContainer (id : String)
deriving DecidableEq, Repr

/-- Outcome of one invocation of `DockerManager::run`: a structured result, an
error, or a Rust panic (from the byte slice at docker.rs line 184). -/
inductive RunOutcome where
  | panicked
  | err (e : ShellError)
  | ok (r : ExecutionResult)
deriving DecidableEq, Repr

/-- Everything one invocation of `DockerManager::run` produces: its outcome,
the manager state after it returns, and the engine calls it issued. -/
structure RunOutput where
  outcome : RunOutcome
  state : DockerManager
  actions : List EngineAction
deriving DecidableEq, Repr

/-- The log-collection loop of docker.rs lines 243-272: per chunk, `Err` items
are skipped, StdOut/StdErr text is appended to the respective accumulator, and
when `trace_io` is set an `IoEvent` stamped with the chunk's elapsed time is
appended in arrival order. -/
def collectLogs (tio : Bool) : List LogChunk → String × String × List IoEvent
  | [] => ("", "", [])
  | c :: rest =>
      let acc := collectLogs tio rest
      match c.item with
      | .ok (.stdOut m) =>
          (m ++ acc.1, acc.2.1,
            (if tio then [⟨c.at_ms, "stdout", m⟩] else []) ++ acc.2.2)
      | .ok (.stdErr m) =>
          (acc.1, m ++ acc.2.1,
            (if tio then [⟨c.at_ms, "stderr", m⟩] else []) ++ acc.2.2)
      | .ok .other => acc
      | .error _ => acc

/-- Model of `DockerManager::connect` (docker.rs lines 116-128): resolve the
local-defaults connection, verify with a ping, then store the handle. -/
def DockerManager.connect (st : DockerManager) (beh : EngineBehavior) :
    Except ShellError Unit × DockerManager :=
  match beh.connect with
  | .error e => (.error (.docker e), st)
  | .ok _ =>
      match beh.connectPing with
      | .error e => (.error (.docker ("Failed to connect to Docker: " ++ e)), st)
      | .ok _ => (.ok (), { st with client := some () })

/-- Model of `DockerManager::is_available` (docker.rs lines 131-140): ping the
stored handle, or lazily connect when none is stored. -/
def DockerManager.is_available (st : DockerManager) (beh : EngineBehavior) :
    Bool × DockerManager :=
  match st.client with
  | some _ =>
      (match beh.ping with
       | .ok _ => true
       | .error _ => false, st)
  | none =>
      match DockerManager.connect st beh with
      | (.ok _, st2) => (true, st2)
      | (.error _, st2) => (false, st2)

/-- Model of `DockerManager::run` (docker.rs lines 143-301), with the engine's
responses fixed by `beh`, `now_utc` standing for `chrono::Utc::now()` and
`dur` for the final `start_time.elapsed().as_millis()`. -/
def DockerManager.run (st : DockerManager) (beh : EngineBehavior)
    (now_utc dur : Nat) (request : ExecutionRequest) : RunOutput :=
  match st.client with
  | none => ⟨.err (.docker "Docker not connected"), st, []⟩
  | some _ =>
      let execution_id := request.id
      let config := buildConfig request
      match takeBytes request.id.data 8 with
      | none => ⟨.panicked, st, []⟩
      | some pre =>
          let name := containerName pre
          match beh.create with
          | .error e =>
              ⟨.err (.docker ("Failed to create container: " ++ e)), st,
                [.createContainer name config]⟩
          | .ok cid =>
              let reg1 := st.running_containers.insert execution_id
                ⟨cid, execution_id, now_utc, .starting⟩
              match beh.start with
              | .error e =>
                  ⟨.err (.docker ("Failed to start container: " ++ e)),
                    { st with running_containers := reg1 },
                    [.createContainer name config, .startContainer cid]⟩
              | .ok _ =>
                  let reg2 := reg1.updateStatus execution_id .running
                  let timeout := effectiveTimeout request
                  let waitOut : Int × Bool × List EngineAction :=
                    match beh.wait with
                    | .exited c => (c, false, [])
                    | .waitErr _ => (-1, false, [])
                    | .streamEnded => (-1, false, [])
                    | .elapsed => (-1, true, [.killContainer cid])
                  let logOut := collectLogs request.trace_io beh.logs
                  let reg3 := reg2.remove execution_id
                  ⟨.ok
                    { id := execution_id
                      exit_code := waitOut.1
                      stdout := logOut.1
                      stderr := logOut.2.1
                      duration_ms := dur
                      timed_out := waitOut.2.1
                      trace :=
                        if request.trace_io then
                          some { steps := [], io_events := logOut.2.2 }
                        else none },
                    { st with running_containers := reg3 },
                    [.createContainer name config, .startContainer cid,
                      .waitContainer cid timeout] ++ waitOut.2.2 ++
                      [.logsContainer cid, .removeContainer cid]⟩

/-- Model of `DockerManager::stop` (docker.rs lines 304-316): requires a
stored engine handle, then kills the registered container if the execution is
present and succeeds silently otherwise. -/
def DockerManager.stop (st : DockerManager) (beh : EngineBehavior)
    (execution_id : String) : Except ShellError Unit × List EngineAction :=
  match st.client with
  | none => (.error (.docker "Docker not connected"), [])
  | some _ =>
      match st.running_containers.lookup execution_id with
      | none => (.ok (), [])
      | some info =>
          match beh.kill with
          | .error e =>
              (.error (.docker ("Failed to stop container: " ++ e)),
                [.killContainer info.id])
          | .ok _ => (.ok (), [.killContainer info.id])

/-- Model of `RunCodeRequest` (commands/execution.rs lines 10-30). -/
structure RunCodeRequest where
  language : String
  code : String
  project_path : String
  entry_point : Option String
  stdin : Option String
  env : Option (List (String × String))
  step_mode : Option Bool
  trace_io : Option Bool
  timeout : Option Nat
deriving DecidableEq, Repr

/-- Model of Rust's `str::to_lowercase` as applied to the ASCII language tags:
character-wise lowercasing. -/
def lowercase (s : String) : String := String.mk (s.data.map Char.toLower)

/-- Model of `get_language_image` (commands/execution.rs lines 40-53). -/
def get_language_image (language : String) : Except ShellError String :=
  match lowercase language with
  | "python" | "py" => .ok "python:3.12-slim"
  | "javascript" | "js" | "node" => .ok "node:20-slim"
  | "typescript" | "ts" => .ok "node:20-slim"
  | "rust" | "rs" => .ok "rust:1.75-slim"
  | "go" | "golang" => .ok "golang:1.21-alpine"
  | "java" => .ok "eclipse-temurin:21-jdk"
  | "c" | "cpp" | "c++" => .ok "gcc:13"
  | "ruby" | "rb" => .ok "ruby:3.3-slim"
  | _ => .error (.execution ("Unsupported language: " ++ language))

/-- Model of `get_run_command` (commands/execution.rs lines 56-72). -/
def get_run_command (language : String) (entry_point : String) :
    Except ShellError (List String) :=
  match lowercase language with
  | "python" | "py" => .ok ["python", entry_point]
  | "javascript" | "js" | "node" => .ok ["node", entry_point]
  | "typescript" | "ts" => .ok ["npx", "tsx", entry_point]
  | "rust" | "rs" => .ok ["cargo", "run"]
  | "go" | "golang" => .ok ["go", "run", entry_point]
  | "java" => .ok ["java", entry_point]
  | "c" => .ok ["sh", "-c", "gcc " ++ entry_point ++ " -o /tmp/a.out && /tmp/a.out"]
  | "cpp" | "c++" => .ok ["sh", "-c", "g++ " ++ entry_point ++ " -o /tmp/a.out && /tmp/a.out"]
  | "ruby" | "rb" => .ok ["ruby", entry_point]
  | _ => .error (.execution ("Unsupported language: " ++ language))

/-- The `ExecutionRequest` literal `run_code` builds (commands/execution.rs
lines 85-101), given the fresh uuid the command generates. -/
def run_code_request (uuid : String) (request : RunCodeRequest) :
    Except ShellError ExecutionRequest :=
  match get_language_image request.language with
  | .error e => .error e
  | .ok image =>
      let entry_point := request.entry_point.getD "main"
      match get_run_command request.language entry_point with
      | .error e => .error e
      | .ok command =>
          .ok
            { id := uuid
              image := image
              command := command
              working_dir := "/workspace"
              source_path := request.project_path
              env := request.env.getD []
              memory_limit := none
              cpu_quota := none
              timeout := request.timeout
              step_mode := request.step_mode.getD false
              trace_io := request.trace_io.getD true }

/-- Model of the `run_code` command (commands/execution.rs lines 76-104):
availability gate, language resolution, then delegation to
`DockerManager::run`. -/
def run_code (st : DockerManager) (beh : EngineBehavior) (now_utc dur : Nat)
    (uuid : String) (request : RunCodeRequest) : RunOutcome × DockerManager :=
  let avail := DockerManager.is_available st beh
  if avail.1 then
    match run_code_request uuid request with
    | .error e => (.err e, avail.2)
    | .ok er =>
        let out := DockerManager.run avail.2 beh now_utc dur er
        (out.outcome, out.state)
  else
    (.err (.docker "Docker is not available. Please install and start Docker."),
      avail.2)

/-- The two tokio mutexes of `DockerManager` (docker.rs lines 26-27). -/
inductive LockId where
  | clientLock
  | registryLock
deriving DecidableEq, Repr

/-- One event of the static lock/suspension trace of a method body: a lock
guard coming into scope, a guard being dropped, or an engine I/O point being
awaited. -/
inductive LockEv where
  | acq (l : LockId)
  | rel (l : LockId)
  | engineAwait (op : String)
deriving DecidableEq, Repr

/-- Static lock/suspension trace of the body of `DockerManager::run`
(docker.rs lines 143-301) on the path where create and start succeed: the
`client` guard is bound at line 144 and lives to the end of the function; the
registry guard is taken and dropped in the three scoped blocks (lines 193-201,
208-213, 278-281); the engine awaits are create (186), start (204), the wait
race (217), the kill on timeout (227), the log drain (243-272), and remove
(275). -/
def runLockTrace (timedOut : Bool) : List LockEv :=
  [.acq .clientLock,
   .engineAwait "create_container",
   .acq .registryLock, .rel .registryLock,
   .engineAwait "start_container",
   .acq .registryLock, .rel .registryLock,
   .engineAwait "wait_container"] ++
  (if timedOut then [.engineAwait "kill_container"] else []) ++
  [.engineAwait "logs",
   .engineAwait "remove_container",
   .acq .registryLock, .rel .registryLock,
   .rel .clientLock]

/-- Static lock/suspension trace of the body of `DockerManager::stop`
(docker.rs lines 304-316): both guards (lines 305 and 309) are alive across
the `kill_container` await at line 311 when the execution is found. -/
def stopLockTrace (found : Bool) : List LockEv :=
  [.acq .clientLock, .acq .registryLock] ++
  (if found then [.engineAwait "kill_container"] else []) ++
  [.rel .registryLock, .rel .clientLock]

/-- For each engine await of a trace, the set (as a list, innermost first) of
locks held at that await. -/
def awaitsHeld : List LockId → List LockEv → List (String × List LockId)
  | _, [] => []
  | held, .acq l :: r => awaitsHeld (l :: held) r
  | held, .rel l :: r => awaitsHeld (held.erase l) r
  | held, .engineAwait op :: r => (op, held) :: awaitsHeld held r

/-- The discipline the spec asserts: no lock is held at any engine await. -/
def noLockAcrossAwait (tr : List LockEv) : Prop :=
  ∀ p ∈ awaitsHeld [] tr, p.2 = []

instance (tr : List LockEv) : Decidable (noLockAcrossAwait tr) :=
  List.decidableBAll _ _

/-- The event an arriving log chunk contributes to the IO trace, if any
(docker.rs lines 249-255 and 260-266). -/
def ioEventOfChunk (c : LogChunk) : Option IoEvent :=
  match c.item with
  | .ok (.stdOut m) => some ⟨c.at_ms, "stdout", m⟩
  | .ok (.stdErr m) => some ⟨c.at_ms, "stderr", m⟩
  | _ => none

/-- Projection of the trace out of a run outcome, for stating witnesses. -/
def RunOutcome.traceOf : RunOutcome → Option ExecutionTrace
  | .ok r => r.trace
  | _ => none

/-- Projection of the exit code out of a run outcome, for stating witnesses. -/
def RunOutcome.exitCodeOf : RunOutcome → Option Int
  | .ok r => some r.exit_code
  | _ => none

/-- Projection of the timed-out flag out of a run outcome, for stating
witnesses. -/
def RunOutcome.timedOutOf : RunOutcome → Option Bool
  | .ok r => some r.timed_out
  | _ => none

/-! ### Concrete scenario fixtures -/

/-- A manager with an established engine connection and empty registry. -/
def stConnected : DockerManager := ⟨some (), []⟩

/-- A manager that has never connected to the engine. -/
def stDisconnected : DockerManager := ⟨none, []⟩

/-- A registry entry for execution "e1" backed by container "c-7". -/
def infoE1 : ContainerInfo := ⟨"c-7", "e1", 0, .running⟩

/-- A connected manager whose registry holds execution "e1". -/
def stWithEntry : DockerManager := ⟨some (), [("e1", infoE1)]⟩

/-- A plain valid request with an 8-byte ASCII identifier. -/
def reqFix : ExecutionRequest :=
  { id := "abcdefgh"
    image := "python:3.12-slim"
    command := ["python", "main"]
    working_dir := "/workspace"
    source_path := "/tmp/proj"
    env := []
    memory_limit := none
    cpu_quota := none
    timeout := none
    step_mode := false
    trace_io := false }

/-- The same request with IO tracing requested. -/
def reqTrace : ExecutionRequest := { reqFix with trace_io := true }

/-- A request whose identifier has fewer than 8 bytes. -/
def reqShort : ExecutionRequest := { reqFix with id := "abc" }

/-- A request overriding every optional resource field. -/
def reqOverride : ExecutionRequest :=
  { reqFix with memory_limit := some 1024, cpu_quota := some 10000, timeout := some 7 }

/-- An engine scenario where everything succeeds and the container exits 42. -/
def behExit42 : EngineBehavior :=
  { connect := .ok ()
    connectPing := .ok ()
    ping := .ok ()
    create := .ok "cid-0"
    start := .ok ()
    wait := .exited 42
    logs := []
    kill := .ok () }

/-- Scenario where the timeout elapses before the container exits. -/
def behElapsed : EngineBehavior := { behExit42 with wait := .elapsed }

/-- Scenario where starting the created container fails. -/
def behStartFail : EngineBehavior := { behExit42 with start := .error "boom" }

/-- Scenario where container creation fails. -/
def behCreateFail : EngineBehavior := { behExit42 with create := .error "nope" }

/-- Scenario with a clean exit and two log chunks. -/
def behLogs : EngineBehavior :=
  { behExit42 with
      wait := .exited 0
      logs := [⟨5, .ok (.stdOut "hel")⟩, ⟨9, .ok (.stdErr "oops")⟩] }

/-- The execution request the command layer builds from `rcFix` and uuid
"u-1". -/
def erFix : ExecutionRequest :=
  { id := "u-1"
    image := "python:3.12-slim"
    command := ["python", "main"]
    working_dir := "/workspace"
    source_path := "/tmp/proj"
    env := []
    memory_limit := none
    cpu_quota := none
    timeout := none
    step_mode := false
    trace_io := true }

/-- A run-code command request for python with no overrides. -/
def rcFix : RunCodeRequest :=
  { language := "python"
    code := "print(1)"
    project_path := "/tmp/proj"
    entry_point := none
    stdin := none
    env := none
    step_mode := none
    trace_io := none
    timeout := none }

/-! ### Helper lemmas -/

theorem Registry.lookup_remove (r : Registry) (k : String) :
    Registry.lookup (Registry.remove r k) k = none := by
  induction r with
  | nil => rfl
  | cons p r ih =>
      obtain ⟨a, b⟩ := p
      by_cases h : a = k
      · simpa [Registry.remove, h] using ih
      · simp [Registry.remove, Registry.lookup, h, ih]

theorem Registry.lookup_insert (r : Registry) (k : String) (v : ContainerInfo) :
    Registry.lookup (Registry.insert r k v) k = some v := by
  simp [Registry.insert, Registry.lookup]

theorem collectLogs_events (l : List LogChunk) :
    (collectLogs true l).2.2 = l.filterMap ioEventOfChunk := by
  induction l with
  | nil => rfl
  | cons c rest ih =>
      cases hc : c.item with
      | error e => simp [collectLogs, ioEventOfChunk, hc, ih]
      | ok lo => cases lo <;> simp [collectLogs, ioEventOfChunk, hc, ih]

theorem timestamps_sublist (l : List LogChunk) :
    ((l.filterMap ioEventOfChunk).map IoEvent.timestamp_ms).Sublist
      (l.map LogChunk.at_ms) := by
  induction l with
  | nil => simp
  | cons c rest ih =>
      cases hc : c.item with
      | error e =>
          simp only [List.filterMap_cons, ioEventOfChunk, hc, List.map_cons]
          exact List.Sublist.cons _ ih
      | ok lo =>
          cases lo with
          | stdOut m =>
              simp only [List.filterMap_cons, ioEventOfChunk, hc, List.map_cons]
              exact List.Sublist.cons₂ _ ih
          | stdErr m =>
              simp only [List.filterMap_cons, ioEventOfChunk, hc, List.map_cons]
              exact List.Sublist.cons₂ _ ih
          | other =>
              simp only [List.filterMap_cons, ioEventOfChunk, hc, List.map_cons]
              exact List.Sublist.cons _ ih

theorem timestamps_mono (l : List LogChunk)
    (h : (l.map LogChunk.at_ms).Pairwise (· ≤ ·)) :
    ((l.filterMap ioEventOfChunk).map IoEvent.timestamp_ms).Pairwise (· ≤ ·) :=
  List.Pairwise.sublist (timestamps_sublist l) h

theorem utf8Len_cons (c : Char) (l : List Char) :
    utf8Len (c :: l) = c.utf8Size + utf8Len l := by
  simp [utf8Len]

theorem utf8Len_eq_zero {l : List Char} : utf8Len l = 0 ↔ l = [] := by
  cases l with
  | nil => simp [utf8Len]
  | cons c r =>
      have := Char.utf8Size_pos c
      simp only [utf8Len_cons]
      constructor
      · intro h
        omega
      · intro h
        exact absurd h (by simp)

theorem takeBytes_eq_some_iff (cs : List Char) :
    ∀ (n : Nat) (pre : List Char),
      takeBytes cs n = some pre ↔ (∃ suf, cs = pre ++ suf) ∧ utf8Len pre = n := by
  induction cs with
  | nil =>
      intro n pre
      cases n with
      | zero =>
          simp only [takeBytes, Option.some.injEq]
          constructor
          · rintro rfl
            exact ⟨⟨[], rfl⟩, rfl⟩
          · rintro ⟨⟨suf, hsuf⟩, hlen⟩
            cases pre with
            | nil => rfl
            | cons a l => simp at hsuf
      | succ m =>
          simp only [takeBytes]
          constructor
          · intro h
            exact absurd h (by simp)
          · rintro ⟨⟨suf, hsuf⟩, hlen⟩
            cases pre with
            | nil => simp [utf8Len] at hlen
            | cons a l => simp at hsuf
  | cons c cs ih =>
      intro n pre
      cases n with
      | zero =>
          simp only [takeBytes, Option.some.injEq]
          constructor
          · rintro rfl
            exact ⟨⟨c :: cs, rfl⟩, rfl⟩
          · rintro ⟨⟨suf, hsuf⟩, hlen⟩
            exact (utf8Len_eq_zero.mp hlen).symm
      | succ m =>
          simp only [takeBytes]
          by_cases h : c.utf8Size ≤ m + 1
          · rw [if_pos h]
            simp only [Option.map_eq_some']
            constructor
            · rintro ⟨pre2, hpre2, rfl⟩
              rcases (ih _ _).mp hpre2 with ⟨⟨suf, rfl⟩, hlen⟩
              refine ⟨⟨suf, rfl⟩, ?_⟩
              rw [utf8Len_cons, hlen]
              omega
            · rintro ⟨⟨suf, hsuf⟩, hlen⟩
              cases pre with
              | nil => simp [utf8Len] at hlen
              | cons a pre2 =>
                  rw [List.cons_append] at hsuf
                  injection hsuf with h1 h2
                  subst h1
                  rw [utf8Len_cons] at hlen
                  refine ⟨pre2, (ih _ _).mpr ⟨⟨suf, h2⟩, ?_⟩, rfl⟩
                  omega
          · rw [if_neg h]
            constructor
            · intro hcontra
              exact absurd hcontra (by simp)
            · rintro ⟨⟨suf, hsuf⟩, hlen⟩
              exfalso
              cases pre with
              | nil => simp [utf8Len] at hlen
              | cons a pre2 =>
                  rw [List.cons_append] at hsuf
                  injection hsuf with h1 h2
                  subst h1
                  rw [utf8Len_cons] at hlen
                  omega

/-! ### Claim theorems -/

/-- Claim C1 (code bug): when `start_container` fails after the registry entry
was inserted, `DockerManager::run` returns the wrapped start error WITHOUT
removing the entry: at the concrete failing input (connected manager, empty
registry, request "abcdefgh", engine that creates "cid-0" but fails to start it
with "boom") the registry still holds the orphaned `Starting` entry after `run`
returns `Err`, contradicting the claim that zero entries remain. -/
theorem c1_start_failure_leaves_registry_entry :
    (DockerManager.run stConnected behStartFail 0 0 reqFix).outcome =
      .err (.docker "Failed to start container: boom") ∧
    Registry.lookup
      (DockerManager.run stConnected behStartFail 0 0 reqFix).state.running_containers
      "abcdefgh" = some ⟨"cid-0", "abcdefgh", 0, .starting⟩ ∧
    (DockerManager.run stConnected behStartFail 0 0 reqFix).state.running_containers ≠
      [] := by
  refine ⟨rfl, rfl, ?_⟩
  decide

/-- Claim C3 (counterexample): the spec's lock discipline — no lock held at any
engine-I/O suspension point — is violated by `DockerManager::run`: the guard on
the engine-client handle taken at the top of `run` is alive at every engine
await of its body (already at the `create_container` await). -/
theorem c3_lock_across_await_counterexample :
    ¬ noLockAcrossAwait (runLockTrace false) := by
  decide

/-- Claim C3 (amended): in `run` the registry lock is scoped and never held
across an engine await, but the engine-client lock is held at every engine
await (so concurrent executions serialize on it); in `stop`, both the client
and the registry lock are held across the kill await. -/
theorem c3_lock_discipline_amended :
    ∀ b : Bool,
      ((awaitsHeld [] (runLockTrace b)).all
          (fun p => p.2 == [LockId.clientLock])) = true ∧
      ((awaitsHeld [] (stopLockTrace true)).all
          (fun p => p.2 == [LockId.registryLock, LockId.clientLock])) = true := by
  intro b
  cases b <;> exact ⟨rfl, rfl⟩

/-- Claim C5: absent `memory_limit`, `cpu_quota` or `timeout` fields are
replaced at the point of use by the process-wide defaults (256 MiB, quota
50000 against the fixed 100000 microsecond period, 30 seconds), and present
fields are used unchanged. -/
theorem c5_defaults_spec (req : ExecutionRequest) :
    (req.memory_limit = none → (buildHostConfig req).memory = some 268435456) ∧
    (∀ v, req.memory_limit = some v → (buildHostConfig req).memory = some v) ∧
    (req.cpu_quota = none → (buildHostConfig req).cpu_quota = some 50000) ∧
    (∀ v, req.cpu_quota = some v → (buildHostConfig req).cpu_quota = some v) ∧
    (buildHostConfig req).cpu_period = some 100000 ∧
    (req.timeout = none → effectiveTimeout req = 30) ∧
    (∀ v, req.timeout = some v → effectiveTimeout req = v) := by
  refine ⟨?_, ?_, ?_, ?_, ?_, ?_, ?_⟩ <;>
    first
    | (intro h
       simp [buildHostConfig, effectiveTimeout, h, DEFAULT_MEMORY_LIMIT,
         DEFAULT_CPU_QUOTA, DEFAULT_CPU_PERIOD, DEFAULT_TIMEOUT_SECONDS])
    | (intro v h
       simp [buildHostConfig, effectiveTimeout, h])
    | simp [buildHostConfig, DEFAULT_CPU_PERIOD]

/-- Claim C5 witness: evaluating the defaults at a request with every optional
field absent and at one overriding all of them. -/
theorem c5_defaults_witness :
    (buildHostConfig reqFix).memory = some 268435456 ∧
    (buildHostConfig reqFix).cpu_quota = some 50000 ∧
    (buildHostConfig reqFix).cpu_period = some 100000 ∧
    effectiveTimeout reqFix = 30 ∧
    (buildHostConfig reqOverride).memory = some 1024 ∧
    (buildHostConfig reqOverride).cpu_quota = some 10000 ∧
    effectiveTimeout reqOverride = 7 :=
  ⟨(c5_defaults_spec reqFix).1 rfl,
   (c5_defaults_spec reqFix).2.2.1 rfl,
   (c5_defaults_spec reqFix).2.2.2.2.1,
   (c5_defaults_spec reqFix).2.2.2.2.2.1 rfl,
   (c5_defaults_spec reqOverride).2.1 1024 rfl,
   (c5_defaults_spec reqOverride).2.2.2.1 10000 rfl,
   (c5_defaults_spec reqOverride).2.2.2.2.2.2 7 rfl⟩

/-- Claim C7 (counterexample): `stop` on an identifier absent from the registry
is NOT unconditionally a success — on a manager that has no engine connection
it returns the engine-not-connected error, not `Ok`. -/
theorem c7_stop_not_connected_counterexample :
    (DockerManager.stop stDisconnected behExit42 "missing").1 =
      .error (.docker "Docker not connected") ∧
    (DockerManager.stop stDisconnected behExit42 "missing").1 ≠ .ok () := by
  refine ⟨rfl, ?_⟩
  decide

/-- Claim C7 (amended): provided an engine connection exists, `stop` on an
identifier not present in the registry returns `Ok` without issuing any engine
call, and on a present identifier it issues a forceful kill to the registered
container. -/
theorem c7_stop_spec_amended (st : DockerManager) (beh : EngineBehavior)
    (eid : String) (hc : st.client = some ()) :
    (Registry.lookup st.running_containers eid = none →
      DockerManager.stop st beh eid = (.ok (), [])) ∧
    (∀ info, Registry.lookup st.running_containers eid = some info →
      (DockerManager.stop st beh eid).2 = [.killContainer info.id]) := by
  constructor
  · intro h
    simp [DockerManager.stop, hc, h]
  · intro info h
    cases hk : beh.kill <;> simp [DockerManager.stop, hc, h, hk]

/-- Claim C7 witness: the amended statement evaluated on a connected manager
holding execution "e1" in container "c-7". -/
theorem c7_stop_witness :
    DockerManager.stop stWithEntry behExit42 "missing" = (.ok (), []) ∧
    (DockerManager.stop stWithEntry behExit42 "e1").2 =
      [.killContainer "c-7"] :=
  ⟨(c7_stop_spec_amended stWithEntry behExit42 "missing" rfl).1 rfl,
   (c7_stop_spec_amended stWithEntry behExit42 "e1" rfl).2 infoE1 rfl⟩

/-- Claim C9: the `stdin` field of a run-code command request is accepted but
never used — it affects neither the constructed `ExecutionRequest` nor the
outcome and final state of the whole run-code pipeline. -/
theorem c9_stdin_ignored (uuid : String) (r : RunCodeRequest) (s : Option String)
    (st : DockerManager) (beh : EngineBehavior) (now_utc dur : Nat) :
    run_code_request uuid { r with stdin := s } = run_code_request uuid r ∧
    run_code st beh now_utc dur uuid { r with stdin := s } =
      run_code st beh now_utc dur uuid r :=
  ⟨rfl, rfl⟩

/-- Claim C2: with the container created and started, the wait race has exactly
the three outcomes the spec states — engine-reported exit code with
`timed_out = false` and no kill when the wait yields a response, kill plus
`exit_code = -1` and `timed_out = true` when the timeout elapses, and
`exit_code = -1` with `timed_out = false` when the wait stream ends without a
definitive response (either by ending or by yielding an error item). -/
theorem c2_wait_timeout_race_spec (st : DockerManager) (beh : EngineBehavior)
    (now_utc dur : Nat) (req : ExecutionRequest) (pre : List Char) (cid : String)
    (hc : st.client = some ()) (hs : takeBytes req.id.data 8 = some pre)
    (hcr : beh.create = .ok cid) (hst : beh.start = .ok ()) :
    ∃ res, (DockerManager.run st beh now_utc dur req).outcome = .ok res ∧
      (∀ code, beh.wait = .exited code →
        res.exit_code = code ∧ res.timed_out = false ∧
        EngineAction.killContainer cid ∉
          (DockerManager.run st beh now_utc dur req).actions) ∧
      (beh.wait = .elapsed →
        res.exit_code = -1 ∧ res.timed_out = true ∧
        EngineAction.killContainer cid ∈
          (DockerManager.run st beh now_utc dur req).actions) ∧
      (beh.wait = .streamEnded → res.exit_code = -1 ∧ res.timed_out = false) ∧
      (∀ msg, beh.wait = .waitErr msg →
        res.exit_code = -1 ∧ res.timed_out = false) := by
  simp only [DockerManager.run, hc, hs, hcr, hst]
  cases hw : beh.wait with
  | exited code =>
      refine ⟨_, rfl, ?_, ?_, ?_, ?_⟩
      · intro code2 h
        injection h with h
        subst h
        refine ⟨rfl, rfl, ?_⟩
        simp
      · intro h
        cases h
      · intro h
        cases h
      · intro msg h
        cases h
  | waitErr msg =>
      refine ⟨_, rfl, ?_, ?_, ?_, ?_⟩
      · intro code2 h
        cases h
      · intro h
        cases h
      · intro h
        cases h
      · intro msg2 h
        exact ⟨rfl, rfl⟩
  | streamEnded =>
      refine ⟨_, rfl, ?_, ?_, ?_, ?_⟩
      · intro code2 h
        cases h
      · intro h
        cases h
      · intro h
        exact ⟨rfl, rfl⟩
      · intro msg h
        cases h
  | elapsed =>
      refine ⟨_, rfl, ?_, ?_, ?_, ?_⟩
      · intro code2 h
        cases h
      · intro h
        refine ⟨rfl, rfl, ?_⟩
        simp
      · intro h
        cases h
      · intro msg h
        cases h

/-- Claim C2 witness: the race evaluated at a concrete exit-42 scenario and a
concrete timeout scenario. -/
theorem c2_wait_timeout_race_witness :
    RunOutcome.exitCodeOf
      (DockerManager.run stConnected behExit42 0 1 reqFix).outcome = some 42 ∧
    RunOutcome.timedOutOf
      (DockerManager.run stConnected behExit42 0 1 reqFix).outcome = some false ∧
    RunOutcome.exitCodeOf
      (DockerManager.run stConnected behElapsed 0 1 reqFix).outcome = some (-1) ∧
    RunOutcome.timedOutOf
      (DockerManager.run stConnected behElapsed 0 1 reqFix).outcome = some true ∧
    EngineAction.killContainer "cid-0" ∈
      (DockerManager.run stConnected behElapsed 0 1 reqFix).actions := by
  obtain ⟨res1, h1, hx1, _, _, _⟩ :=
    c2_wait_timeout_race_spec stConnected behExit42 0 1 reqFix
      ("abcdefgh".data) "cid-0" rfl rfl rfl rfl
  obtain ⟨res2, h2, _, he2, _, _⟩ :=
    c2_wait_timeout_race_spec stConnected behElapsed 0 1 reqFix
      ("abcdefgh".data) "cid-0" rfl rfl rfl rfl
  obtain ⟨hc1, ht1, _⟩ := hx1 42 rfl
  obtain ⟨hc2, ht2, hk2⟩ := he2 rfl
  refine ⟨?_, ?_, ?_, ?_, hk2⟩ <;>
    simp [RunOutcome.exitCodeOf, RunOutcome.timedOutOf, h1, h2, hc1, ht1, hc2, ht2]

/-- Claim C4: every container creation issued by `run` uses the config built
from the request, whose host configuration fixes network mode "none" and a
single read-only bind mount of the caller's source path at "/workspace",
unconditionally; and the command layer's constructed requests use "/workspace"
as the working directory, so the fixed mount path is the working directory. -/
theorem c4_isolation_spec (st : DockerManager) (beh : EngineBehavior)
    (now_utc dur : Nat) (req : ExecutionRequest) :
    (∀ name cfg, EngineAction.createContainer name cfg ∈
        (DockerManager.run st beh now_utc dur req).actions →
      cfg = buildConfig req) ∧
    (buildConfig req).host_config = some (buildHostConfig req) ∧
    (buildHostConfig req).network_mode = some "none" ∧
    (buildHostConfig req).mounts = some
      [{ target := some "/workspace", source := some req.source_path,
         typ := some "bind", read_only := some true }] ∧
    (∀ uuid rc er, run_code_request uuid rc = .ok er →
      er.working_dir = "/workspace") := by
  refine ⟨?_, rfl, rfl, rfl, ?_⟩
  · intro name cfg hmem
    cases hcl : st.client with
    | none => simp [DockerManager.run, hcl] at hmem
    | some u =>
        cases u
        cases hsl : takeBytes req.id.data 8 with
        | none => simp [DockerManager.run, hcl, hsl] at hmem
        | some pre =>
            cases hcr : beh.create with
            | error e =>
                simp [DockerManager.run, hcl, hsl, hcr] at hmem
                exact hmem.2
            | ok cid =>
                cases hst : beh.start with
                | error e =>
                    simp [DockerManager.run, hcl, hsl, hcr, hst] at hmem
                    exact hmem.2
                | ok u2 =>
                    cases u2
                    cases hw : beh.wait <;>
                      simp [DockerManager.run, hcl, hsl, hcr, hst, hw] at hmem <;>
                      exact hmem.2
  · intro uuid rc er h
    cases himg : get_language_image rc.language with
    | error e => simp [run_code_request, himg] at h
    | ok img =>
        cases hcmd : get_run_command rc.language (rc.entry_point.getD "main") with
        | error e => simp [run_code_request, himg, hcmd] at h
        | ok cmd =>
            simp [run_code_request, himg, hcmd] at h
            rw [← h]

/-- Claim C4 witness: the create call of a concrete run carries the config of
the request, and a concrete command-layer request resolves to a "/workspace"
working directory. -/
theorem c4_isolation_witness :
    EngineAction.createContainer "shell-exec-abcdefgh" (buildConfig reqFix) ∈
      (DockerManager.run stConnected behExit42 0 1 reqFix).actions ∧
    run_code_request "u-1" rcFix = .ok erFix ∧
    erFix.working_dir = "/workspace" ∧
    buildConfig reqFix = buildConfig reqFix := by
  have hmem : EngineAction.createContainer "shell-exec-abcdefgh" (buildConfig reqFix) ∈
      (DockerManager.run stConnected behExit42 0 1 reqFix).actions := by decide
  refine ⟨hmem, rfl, ?_, ?_⟩
  · exact (c4_isolation_spec stConnected behExit42 0 1 reqFix).2.2.2.2 "u-1" rcFix
      erFix rfl
  · exact (c4_isolation_spec stConnected behExit42 0 1 reqFix).1
      "shell-exec-abcdefgh" (buildConfig reqFix) hmem

/-- Claim C6: on a run that reaches the result, the trace is `None` exactly
when `trace_io` is false; when `trace_io` is true the trace is present with an
empty step list and one IO event per StdOut/StdErr log chunk in arrival order,
and arrival-ordered chunk timestamps yield non-decreasing event timestamps. -/
theorem c6_trace_spec (st : DockerManager) (beh : EngineBehavior)
    (now_utc dur : Nat) (req : ExecutionRequest) (pre : List Char) (cid : String)
    (hc : st.client = some ()) (hs : takeBytes req.id.data 8 = some pre)
    (hcr : beh.create = .ok cid) (hst : beh.start = .ok ()) :
    ∃ res, (DockerManager.run st beh now_utc dur req).outcome = .ok res ∧
      (res.trace = none ↔ req.trace_io = false) ∧
      (req.trace_io = true →
        res.trace = some ⟨[], beh.logs.filterMap ioEventOfChunk⟩ ∧
        ((beh.logs.map LogChunk.at_ms).Pairwise (· ≤ ·) →
          ((beh.logs.filterMap ioEventOfChunk).map IoEvent.timestamp_ms).Pairwise
            (· ≤ ·))) := by
  simp only [DockerManager.run, hc, hs, hcr, hst]
  refine ⟨_, rfl, ?_, ?_⟩
  · cases htio : req.trace_io <;> simp [htio]
  · intro htio
    refine ⟨?_, fun h => timestamps_mono _ h⟩
    simp [htio, collectLogs_events]

/-- Claim C6 witness: a traced run with two log chunks produces exactly the two
ordered IO events; an untraced run produces no trace. -/
theorem c6_trace_witness :
    RunOutcome.traceOf
      (DockerManager.run stConnected behLogs 0 9 reqTrace).outcome =
      some ⟨[], [⟨5, "stdout", "hel"⟩, ⟨9, "stderr", "oops"⟩]⟩ ∧
    RunOutcome.traceOf
      (DockerManager.run stConnected behExit42 0 1 reqFix).outcome = none ∧
    (([⟨5, "stdout", "hel"⟩, ⟨9, "stderr", "oops"⟩] : List IoEvent).map
        IoEvent.timestamp_ms).Pairwise (· ≤ ·) := by
  obtain ⟨res, h1, _, htr⟩ :=
    c6_trace_spec stConnected behLogs 0 9 reqTrace
      ("abcdefgh".data) "cid-0" rfl rfl rfl rfl
  obtain ⟨htrace, hmono⟩ := htr rfl
  obtain ⟨res2, h2, hiff2, _⟩ :=
    c6_trace_spec stConnected behExit42 0 1 reqFix
      ("abcdefgh".data) "cid-0" rfl rfl rfl rfl
  refine ⟨?_, ?_, ?_⟩
  · rw [h1]
    simpa [RunOutcome.traceOf] using htrace
  · rw [h2]
    simpa [RunOutcome.traceOf] using hiff2.mpr rfl
  · exact hmono (by decide)

/-- Claim C8 (counterexample): with no stored engine connection but an engine
to which a lazy connection would succeed (as `is_available` demonstrates by
returning true), `run` still fails with the engine-not-connected error — so it
neither lazily connects nor reserves that error for lazy-connection failure. -/
theorem c8_no_lazy_connect_counterexample :
    (DockerManager.is_available stDisconnected behExit42).1 = true ∧
    (DockerManager.run stDisconnected behExit42 0 1 reqFix).outcome =
      .err (.docker "Docker not connected") :=
  ⟨rfl, rfl⟩

/-- Claim C8 (amended): `run` performs no lazy connection — whenever no engine
connection exists it fails immediately with the engine-not-connected error,
issuing no engine call and leaving the state unchanged; the lazy
connect-and-ping lives in `is_available`; create and start failures are
surfaced wrapping the engine's own error text. -/
theorem c8_connection_spec_amended (st : DockerManager) (beh : EngineBehavior)
    (now_utc dur : Nat) (req : ExecutionRequest) :
    (st.client = none →
      (DockerManager.run st beh now_utc dur req).outcome =
        .err (.docker "Docker not connected") ∧
      (DockerManager.run st beh now_utc dur req).actions = [] ∧
      (DockerManager.run st beh now_utc dur req).state = st) ∧
    (st.client = none → beh.connect = .ok () → beh.connectPing = .ok () →
      DockerManager.is_available st beh = (true, { st with client := some () })) ∧
    (∀ pre e, st.client = some () → takeBytes req.id.data 8 = some pre →
      beh.create = .error e →
      (DockerManager.run st beh now_utc dur req).outcome =
        .err (.docker ("Failed to create container: " ++ e))) ∧
    (∀ pre cid e, st.client = some () → takeBytes req.id.data 8 = some pre →
      beh.create = .ok cid → beh.start = .error e →
      (DockerManager.run st beh now_utc dur req).outcome =
        .err (.docker ("Failed to start container: " ++ e))) := by
  refine ⟨?_, ?_, ?_, ?_⟩
  · intro h
    refine ⟨?_, ?_, ?_⟩ <;> simp [DockerManager.run, h]
  · intro h h1 h2
    simp [DockerManager.is_available, DockerManager.connect, h, h1, h2]
  · intro pre e hc hs hcr
    simp [DockerManager.run, hc, hs, hcr]
  · intro pre cid e hc hs hcr hst
    simp [DockerManager.run, hc, hs, hcr, hst]

/-- Claim C8 witness: the amended statement at concrete scenarios — a
disconnected manager, a lazily connecting availability probe, and wrapped
create/start failures. -/
theorem c8_connection_witness :
    (DockerManager.run stDisconnected behExit42 0 1 reqFix).outcome =
      .err (.docker "Docker not connected") ∧
    DockerManager.is_available stDisconnected behExit42 = (true, stConnected) ∧
    (DockerManager.run stConnected behCreateFail 0 1 reqFix).outcome =
      .err (.docker "Failed to create container: nope") ∧
    (DockerManager.run stConnected behStartFail 0 1 reqFix).outcome =
      .err (.docker "Failed to start container: boom") := by
  obtain ⟨h1, h2, _, _⟩ :=
    c8_connection_spec_amended stDisconnected behExit42 0 1 reqFix
  refine ⟨(h1 rfl).1, h2 rfl rfl rfl, ?_, ?_⟩
  · exact (c8_connection_spec_amended stConnected behCreateFail 0 1 reqFix).2.2.1
      ("abcdefgh".data) "nope" rfl rfl rfl
  · exact (c8_connection_spec_amended stConnected behStartFail 0 1 reqFix).2.2.2
      ("abcdefgh".data) "cid-0" "boom" rfl rfl rfl rfl

/-- Claim C10: on a connected manager, `run` constructs the container name by
byte-slicing the identifier and is total exactly when the identifier has a
UTF-8 character boundary at byte 8 (hence at least 8 bytes); otherwise it
panics before any engine call — in particular before any container is
created. -/
theorem c10_byte_slice_spec (st : DockerManager) (beh : EngineBehavior)
    (now_utc dur : Nat) (req : ExecutionRequest) (hc : st.client = some ()) :
    (takeBytes req.id.data 8 = none ↔
      ¬ ∃ pre suf, req.id.data = pre ++ suf ∧ utf8Len pre = 8) ∧
    (takeBytes req.id.data 8 = none →
      (DockerManager.run st beh now_utc dur req).outcome = .panicked ∧
      (DockerManager.run st beh now_utc dur req).actions = []) ∧
    (∀ pre, takeBytes req.id.data 8 = some pre →
      (DockerManager.run st beh now_utc dur req).outcome ≠ .panicked) := by
  refine ⟨?_, ?_, ?_⟩
  · constructor
    · rintro h ⟨pre, suf, hsplit, hlen⟩
      have hsome := (takeBytes_eq_some_iff req.id.data 8 pre).mpr ⟨⟨suf, hsplit⟩, hlen⟩
      rw [h] at hsome
      cases hsome
    · intro h
      cases hv : takeBytes req.id.data 8 with
      | none => rfl
      | some pre =>
          exfalso
          rcases (takeBytes_eq_some_iff req.id.data 8 pre).mp hv with ⟨⟨suf, hsplit⟩, hlen⟩
          exact h ⟨pre, suf, hsplit, hlen⟩
  · intro h
    constructor <;> simp [DockerManager.run, hc, h]
  · intro pre h
    simp only [DockerManager.run, hc, h]
    cases hcr : beh.create with
    | error e => simp
    | ok cid =>
        cases hst : beh.start with
        | error e => simp
        | ok u => simp

/-- Claim C10 witness: a 3-byte identifier panics before any engine call, and
the 8-byte ASCII identifier does not panic. -/
theorem c10_byte_slice_witness :
    (DockerManager.run stConnected behExit42 0 1 reqShort).outcome = .panicked ∧
    (DockerManager.run stConnected behExit42 0 1 reqShort).actions = [] ∧
    (DockerManager.run stConnected behExit42 0 1 reqFix).outcome ≠ .panicked := by
  obtain ⟨_, hnone, _⟩ := c10_byte_slice_spec stConnected behExit42 0 1 reqShort rfl
  obtain ⟨h1, h2⟩ := hnone rfl
  refine ⟨h1, h2, ?_⟩
  exact (c10_byte_slice_spec stConnected behExit42 0 1 reqFix rfl).2.2
    ("abcdefgh".data) rfl

end Shell
